import Mathlib

set_option maxRecDepth 16000

/-!
# ScaleCards ingestion pipeline — verification of the spec claims

Shallow embedding of the change-detection / refresh / watchdog core of the
ScaleCards repository:

* `MD5` — the MD5 digest (RFC 1321), modelling Node's
  `crypto.createHash("md5")` used by every refresh path to fingerprint a
  payload.  Machine words are `Nat`s reduced `% 2^32`.
* `Jv` — JavaScript values as passed to `JSON.stringify`: objects are
  *ordered* association lists, because `JSON.stringify` emits keys in
  insertion order.  Number literals are carried as their ECMAScript
  decimal string (the value determines the string, so equal numbers have
  equal literals).
* `Dataset` / `Snapshot` / `Store` — the Prisma rows and the append-only
  snapshot log the pipeline reads and writes.
* step functions for the three refresh execution paths
  (`app/api/refresh/route.ts`, `inngest/functions/refreshDatasets.ts`,
  `app/api/refresh/[slug]/route.ts`) and for the watchdog-triggered path
  (`inngest/functions/watchForNewPublications.ts`).
* the watchdog probes of `lib/datasets/watchdog.ts` over an explicit model
  of each probe's HTTP fetch outcome.
-/

namespace ScaleCards

/-! ## MD5 (RFC 1321), on `Nat` bytes and 32-bit words -/

namespace MD5

def m32 : Nat := 4294967296

/-- 32-bit addition. -/
def add32 (a b : Nat) : Nat := (a + b) % m32

/-- 32-bit complement. -/
def not32 (x : Nat) : Nat := x ^^^ 4294967295

/-- 32-bit left rotation (input assumed `< 2^32`). -/
def rotl32 (x s : Nat) : Nat := (((x <<< s) % m32) ||| (x >>> (32 - s)))

/-- The 64 sine-derived constants `K[i] = ⌊|sin (i+1)| · 2^32⌋` of RFC 1321. -/
def kTable : Array Nat := #[
  0xd76aa478, 0xe8c7b756, 0x242070db, 0xc1bdceee,
  0xf57c0faf, 0x4787c62a, 0xa8304613, 0xfd469501,
  0x698098d8, 0x8b44f7af, 0xffff5bb1, 0x895cd7be,
  0x6b901122, 0xfd987193, 0xa679438e, 0x49b40821,
  0xf61e2562, 0xc040b340, 0x265e5a51, 0xe9b6c7aa,
  0xd62f105d, 0x02441453, 0xd8a1e681, 0xe7d3fbc8,
  0x21e1cde6, 0xc33707d6, 0xf4d50d87, 0x455a14ed,
  0xa9e3e905, 0xfcefa3f8, 0x676f02d9, 0x8d2a4c8a,
  0xfffa3942, 0x8771f681, 0x6d9d6122, 0xfde5380c,
  0xa4beea44, 0x4bdecfa9, 0xf6bb4b60, 0xbebfbc70,
  0x289b7ec6, 0xeaa127fa, 0xd4ef3085, 0x04881d05,
  0xd9d4d039, 0xe6db99e5, 0x1fa27cf8, 0xc4ac5665,
  0xf4292244, 0x432aff97, 0xab9423a7, 0xfc93a039,
  0x655b59c3, 0x8f0ccc92, 0xffeff47d, 0x85845dd1,
  0x6fa87e4f, 0xfe2ce6e0, 0xa3014314, 0x4e0811a1,
  0xf7537e82, 0xbd3af235, 0x2ad7d2bb, 0xeb86d391]

/-- Per-round left-rotation amounts. -/
def sTable : Array Nat := #[
  7, 12, 17, 22, 7, 12, 17, 22, 7, 12, 17, 22, 7, 12, 17, 22,
  5, 9, 14, 20, 5, 9, 14, 20, 5, 9, 14, 20, 5, 9, 14, 20,
  4, 11, 16, 23, 4, 11, 16, 23, 4, 11, 16, 23, 4, 11, 16, 23,
  6, 10, 15, 21, 6, 10, 15, 21, 6, 10, 15, 21, 6, 10, 15, 21]

/-- `k` little-endian bytes of `v` (truncates at `2^(8k)`). -/
def leBytes : Nat → Nat → List Nat
  | 0, _ => []
  | k + 1, v => v % 256 :: leBytes k (v / 256)

/-- RFC 1321 padding: `0x80`, zeros to 56 mod 64, then the 64-bit
little-endian bit length. -/
def padMessage (msg : List Nat) : List Nat :=
  let len := msg.length
  let zeros := (119 - len % 64) % 64
  msg ++ 128 :: List.replicate zeros 0 ++ leBytes 8 (len * 8)

/-- Split a byte list into 64-byte chunks (structural recursion on a fuel
bound so that the kernel can evaluate it; `fuel ≥ bs.length` suffices). -/
def chunks64Go : Nat → List Nat → List (List Nat)
  | 0, _ => []
  | fuel + 1, bs => if bs = [] then [] else bs.take 64 :: chunks64Go fuel (bs.drop 64)

/-- Split a byte list into 64-byte chunks. -/
def chunks64 (bs : List Nat) : List (List Nat) :=
  chunks64Go bs.length bs

/-- Word `j` of a chunk, read little-endian. -/
def leWord (chunk : List Nat) (j : Nat) : Nat :=
  chunk.getD (4 * j) 0 + 256 * chunk.getD (4 * j + 1) 0 +
    65536 * chunk.getD (4 * j + 2) 0 + 16777216 * chunk.getD (4 * j + 3) 0

structure MDState where
  a : Nat
  b : Nat
  c : Nat
  d : Nat
  deriving DecidableEq

/-- One of the 64 MD5 operations. -/
def roundStep (chunk : List Nat) (st : MDState) (i : Nat) : MDState :=
  let f :=
    if i < 16 then (st.b &&& st.c) ||| (not32 st.b &&& st.d)
    else if i < 32 then (st.d &&& st.b) ||| (not32 st.d &&& st.c)
    else if i < 48 then st.b ^^^ st.c ^^^ st.d
    else st.c ^^^ (st.b ||| not32 st.d)
  let g :=
    if i < 16 then i
    else if i < 32 then (5 * i + 1) % 16
    else if i < 48 then (3 * i + 5) % 16
    else (7 * i) % 16
  let rot := rotl32 (add32 (add32 st.a f) (add32 (kTable.getD i 0) (leWord chunk g)))
    (sTable.getD i 0)
  { a := st.d, b := add32 st.b rot, c := st.b, d := st.c }

def processChunk (st0 : MDState) (chunk : List Nat) : MDState :=
  let r := (List.range 64).foldl (roundStep chunk) st0
  { a := add32 st0.a r.a, b := add32 st0.b r.b, c := add32 st0.c r.c, d := add32 st0.d r.d }

def initState : MDState :=
  { a := 0x67452301, b := 0xefcdab89, c := 0x98badcfe, d := 0x10325476 }

/-- Lowercase hex digit. -/
def hexDigit (n : Nat) : Char :=
  if n < 10 then Char.ofNat (48 + n) else Char.ofNat (87 + n)

/-- A 32-bit word as 8 hex characters, bytes little-endian first. -/
def wordHexLE (w : Nat) : String :=
  String.mk ((leBytes 4 w).foldr (fun b acc => hexDigit (b / 16) :: hexDigit (b % 16) :: acc) [])

/-- The MD5 digest of a byte list, as the usual 32-character lowercase hex
string (`crypto.createHash("md5").update(s).digest("hex")`). -/
def md5Hex (msg : List Nat) : String :=
  let fin := (chunks64 (padMessage msg)).foldl processChunk initState
  wordHexLE fin.a ++ wordHexLE fin.b ++ wordHexLE fin.c ++ wordHexLE fin.d

end MD5

/-! ## JavaScript values and `JSON.stringify`

A payload handed to `crypto.createHash("md5").update(JSON.stringify(payload))`
is a JavaScript object.  `JSON.stringify` emits object keys in *insertion
order*, so objects are modelled as ordered field lists, not finite maps.
Number leaves carry their ECMAScript decimal serialization as a string (the
numeric value determines that string, so numbers that are equal serialize
identically). -/

mutual

inductive Jv where
  | jstr (s : String)
  | jnum (lit : String)
  | jarr (elems : JvList)
  | jobj (fields : JvFields)

inductive JvList where
  | nil
  | cons (head : Jv) (tail : JvList)

inductive JvFields where
  | nil
  | cons (key : String) (val : Jv) (tail : JvFields)

end

/-- Build an ordered field list from a `List` literal (keeps order). -/
def jfields : List (String × Jv) → JvFields
  | [] => .nil
  | (k, v) :: rest => .cons k v (jfields rest)

/-- Build a `JvList` from a `List` literal (keeps order). -/
def jlist : List Jv → JvList
  | [] => .nil
  | v :: rest => .cons v (jlist rest)

/-- JavaScript property lookup on an object's field list (objects produced by
the adapters have no duplicate keys; lookup returns the first match). -/
def jvLookup (k : String) : JvFields → Option Jv
  | .nil => none
  | .cons k' v rest => if k' = k then some v else jvLookup k rest

/-- JavaScript property access `payload[k]` (an `undefined` result is `none`). -/
def jvField (p : Jv) (k : String) : Option Jv :=
  match p with
  | .jobj fs => jvLookup k fs
  | _ => none

/-- JSON string escaping as performed by `JSON.stringify`. -/
def escapeChar (c : Char) : String :=
  if c = '"' then "\\\""
  else if c = '\\' then "\\\\"
  else if c = Char.ofNat 8 then "\\b"
  else if c = Char.ofNat 9 then "\\t"
  else if c = Char.ofNat 10 then "\\n"
  else if c = Char.ofNat 12 then "\\f"
  else if c = Char.ofNat 13 then "\\r"
  else if c.toNat < 32 then
    "\\u00" ++ String.mk [MD5.hexDigit (c.toNat / 16), MD5.hexDigit (c.toNat % 16)]
  else String.mk [c]

def escapeString (s : String) : String := String.join (s.toList.map escapeChar)

def quoteJson (s : String) : String := "\"" ++ escapeString s ++ "\""

mutual

/-- ECMAScript `JSON.stringify` (no spacing argument): keys in insertion
order, elements comma-separated, strings quoted and escaped. -/
def stringify : Jv → String
  | .jstr s => quoteJson s
  | .jnum lit => lit
  | .jarr xs => "[" ++ stringifyElems xs ++ "]"
  | .jobj fs => "\x7b" ++ stringifyFields fs ++ "\x7d"

def stringifyElems : JvList → String
  | .nil => ""
  | .cons x .nil => stringify x
  | .cons x xs => stringify x ++ "," ++ stringifyElems xs

def stringifyFields : JvFields → String
  | .nil => ""
  | .cons k v .nil => quoteJson k ++ ":" ++ stringify v
  | .cons k v fs => quoteJson k ++ ":" ++ stringify v ++ "," ++ stringifyFields fs

end

/-- Bytes of a string as fed to `hash.update(s)` (UTF-8; every serialized
payload appearing in this development is ASCII, where the UTF-8 bytes are
exactly the code points). -/
def strBytes (s : String) : List Nat := s.toList.map Char.toNat

/-- Payload fingerprint
`crypto.createHash("md5").update(JSON.stringify(payload)).digest("hex")`,
computed by this exact expression in `app/api/refresh/route.ts`,
`app/api/refresh/[slug]/route.ts`, `inngest/functions/refreshDatasets.ts`
and `inngest/functions/watchForNewPublications.ts`. -/
def sourceHash (payload : Jv) : String := MD5.md5Hex (strBytes (stringify payload))

/-! ## Small JavaScript semantics helpers -/

/-- Truthiness of a `number | null` JavaScript value (`null` and `0` are
falsy). -/
def jsTruthyOptInt : Option Int → Bool
  | none => false
  | some n => n != 0

/-- Numeric value of a decimal digit character. -/
def digitVal (c : Char) : Nat := c.toNat - 48

/-- Match of the regex `/20\d{2}/` at the head of the character list
(`probeCO2Emissions` / `probeOWIDEnergyData` commit-message scan). -/
def co2YearAt : List Char → Option Nat
  | '2' :: '0' :: c :: d :: _ =>
    if c.isDigit && d.isDigit then some (2000 + 10 * digitVal c + digitVal d) else none
  | _ => none

/-- Leftmost match of `/20\d{2}/` in a character list, as found by
`msg.match(/20\d{2}/)` followed by `parseInt`. -/
def firstYear : List Char → Option Nat
  | [] => none
  | c0 :: rest =>
    match co2YearAt (c0 :: rest) with
    | some y => some y
    | none => firstYear rest

/-- Match of the regex `/20[1-9]\d/` at the head of the character list
(the `extractDataYear` scan of `inngest/functions/refreshDatasets.ts`). -/
def notesYearAt : List Char → Option Nat
  | '2' :: '0' :: c :: d :: _ =>
    if ('1' ≤ c && c ≤ '9') && d.isDigit then some (2000 + 10 * digitVal c + digitVal d)
    else none
  | _ => none

/-- All (non-overlapping, left-to-right) matches of `/20[1-9]\d/g`, with a
structural fuel bound so the kernel can evaluate it (`fuel ≥ cs.length`
suffices, since every step consumes at least one character). -/
def yearMatchesGo : Nat → List Char → List Nat
  | 0, _ => []
  | _, [] => []
  | fuel + 1, c0 :: rest =>
    match notesYearAt (c0 :: rest) with
    | some y => y :: yearMatchesGo fuel (rest.drop 3)
    | none => yearMatchesGo fuel rest

/-- All matches of `notes.match(/20[1-9]\d/g)`. -/
def yearMatches (cs : List Char) : List Nat := yearMatchesGo cs.length cs

/-- JavaScript `parseInt(s, 10)` restricted to the strings this pipeline
parses (no leading whitespace): an optional sign followed by a longest
decimal-digit prefix; `none` models `NaN` (every comparison against which
is false). -/
def jsParseInt (s : String) : Option Int :=
  match s.toList with
  | '-' :: rest =>
    match rest.takeWhile Char.isDigit with
    | [] => none
    | ds => some (-(ds.foldl (fun acc c => 10 * acc + digitVal c) 0 : Nat))
  | '+' :: rest =>
    match rest.takeWhile Char.isDigit with
    | [] => none
    | ds => some (ds.foldl (fun acc c => 10 * acc + digitVal c) 0 : Nat)
  | cs =>
    match cs.takeWhile Char.isDigit with
    | [] => none
    | ds => some (ds.foldl (fun acc c => 10 * acc + digitVal c) 0 : Nat)

/-- `extractDataYear` of `inngest/functions/refreshDatasets.ts`: the highest
`/20[1-9]\d/` match in the payload's `notes` string, or `null` when `notes`
is missing, not a string, or mentions no such year. -/
def extractDataYear (payload : Jv) : Option Int :=
  match jvField payload "notes" with
  | some (.jstr notes) =>
    match yearMatches notes.toList with
    | [] => none
    | y :: ys => some (Int.ofNat (ys.foldl Nat.max y))
  | _ => none

/-! ## Data model: `Dataset` rows, `Snapshot` rows, and the snapshot store

Timestamps are epoch milliseconds (`Date.now()` / `new Date().getTime()`),
carried as `Int`.  `latestSnapshotId` is `Option Nat` (Prisma ids are
non-empty strings, truthy exactly when present). -/

structure Dataset where
  id : Nat
  slug : String
  refreshRate : String
  lastRefreshedAt : Option Int := none
  lastWatchdogAt : Option Int := none
  latestSourceYear : Option Int := none
  latestSnapshotId : Option Nat := none
  deriving DecidableEq

structure Snapshot where
  id : Nat
  datasetId : Nat
  payload : Jv
  sourceHash : String
  collectedAt : Int

/-- The append-only snapshot table plus the id the next `snapshot.create`
will allocate. -/
structure Store where
  snapshots : List Snapshot
  nextId : Nat

/-- `prisma.snapshot.findUnique(where id)`. -/
def findSnapshot (st : Store) (i : Nat) : Option Snapshot :=
  st.snapshots.find? (fun s => s.id == i)

/-- `prisma.snapshot.create`: appends a row and returns it. -/
def createSnapshot (st : Store) (datasetId : Nat) (payload : Jv) (hash : String)
    (now : Int) : Snapshot × Store :=
  let snap : Snapshot :=
    { id := st.nextId, datasetId := datasetId, payload := payload,
      sourceHash := hash, collectedAt := now }
  (snap, { snapshots := st.snapshots ++ [snap], nextId := st.nextId + 1 })

/-! ## Fetcher registry (`lib/datasets/registry.ts`) -/

/-- The keys of the `datasetFetchers` record. -/
def fetcherSlugs : List String :=
  ["us-national-debt", "ethereum-price", "global-flights", "global-earthquakes",
   "near-earth-asteroids", "live-population", "bitcoin-price", "wikipedia-pageviews",
   "co2-emissions", "renewable-energy", "ev-adoption", "military-spending",
   "internet-access", "smartphone-access", "ai-adoption", "wealth-inequality",
   "active-satellites", "cyberattacks-today", "temperature-anomaly", "deforestation",
   "ocean-plastic", "trillion-dollar-club", "sp500-mood", "food-waste",
   "extreme-poverty", "water-usage", "global-ewaste", "global-land-use",
   "ships-at-sea", "solar-activity-today", "billionaires-vs-gdp",
   "generational-wealth", "causes-of-mortality", "eradicated-diseases",
   "data-creation", "semiconductor-manufacturing"]

/-- `hasFetcher` of `lib/datasets/registry.ts`: `datasetSlug in datasetFetchers`. -/
def hasFetcher (slug : String) : Bool := fetcherSlugs.contains slug

/-- Outcome of `await fetchDataset(slug)`: the normalized payload, or the
message of the error the adapter threw. -/
abbrev Fetched := Except String Jv

/-! ## Refresh execution paths

Each path is embedded as its per-dataset loop body: a function of the
dataset row, the snapshot store, the adapter outcome, and booleans saying
whether the `snapshot.create` and the pointer `dataset.update` database
calls succeed (a failing call throws and lands in the surrounding `catch`).
The `card.updateMany` propagation and the display-only `sourceType`
metadata are not modelled. -/

structure StepResult where
  dataset : Dataset
  store : Store
  status : String
  errMsg : Option String := none

/-- Elapsed hours `(Date.now() - lastRefreshedAt.getTime()) / (1000*60*60)`,
as an exact rational. -/
def hoursSince (now t : Int) : ℚ := ((now - t : Int) : ℚ) / (1000 * 60 * 60)

/-- Shared hash comparison of all four paths: the dataset has a latest
snapshot pointer and the pointed-to row's `sourceHash` equals the hash of
the freshly fetched payload (`latest?.sourceHash === sourceHash`). -/
def hashUnchanged (ds : Dataset) (st : Store) (hash : String) : Bool :=
  match ds.latestSnapshotId with
  | some sid => ((findSnapshot st sid).map Snapshot.sourceHash) == some hash
  | none => false

/-- Rate gate of `GET` in `app/api/refresh/route.ts` (evaluated only when
`force` is false): hourly < 0.5 h, daily < 12 h, weekly < 72 h since the
last refresh.  The source compares `hoursSince = (now-t)/(1000*60*60)`
against the thresholds; over exact arithmetic this is equivalent to the
millisecond comparisons used here (`hoursSince_lt_iff`,
`hoursSince_lt_half_iff`). -/
def routeGate (now : Int) (ds : Dataset) : Bool :=
  match ds.lastRefreshedAt with
  | none => false
  | some t =>
    (ds.refreshRate == "hourly" && decide (2 * (now - t) < 1000 * 60 * 60)) ||
    (ds.refreshRate == "daily" && decide (now - t < 12 * (1000 * 60 * 60))) ||
    (ds.refreshRate == "weekly" && decide (now - t < 72 * (1000 * 60 * 60)))

/-- One iteration of the dataset loop in `GET` of `app/api/refresh/route.ts`. -/
def refreshRouteStep (force : Bool) (now : Int) (fetched : Fetched)
    (createOk pointerOk : Bool) (ds : Dataset) (st : Store) : StepResult :=
  if !hasFetcher ds.slug then
    { dataset := ds, store := st, status := "no_fetcher" }
  else if !force && routeGate now ds then
    { dataset := ds, store := st, status := "skipped_too_recent" }
  else
    match fetched with
    | .error msg => { dataset := ds, store := st, status := "error", errMsg := some msg }
    | .ok payload =>
      let hash := sourceHash payload
      if hashUnchanged ds st hash then
        { dataset := { ds with lastRefreshedAt := some now }, store := st,
          status := "unchanged" }
      else if !createOk then
        { dataset := ds, store := st, status := "error",
          errMsg := some "snapshot.create failed" }
      else
        let created := createSnapshot st ds.id payload hash now
        if !pointerOk then
          { dataset := ds, store := created.2, status := "error",
            errMsg := some "dataset.update failed" }
        else
          { dataset := { ds with latestSnapshotId := some created.1.id,
                                 lastRefreshedAt := some now },
            store := created.2, status := "refreshed" }

/-- Rate gate of `refreshDatasets` in `inngest/functions/refreshDatasets.ts`:
daily < 20 h, weekly < 120 h; hourly datasets are refreshed on every run and
there is no `force` flag. -/
def inngestGate (now : Int) (ds : Dataset) : Bool :=
  match ds.lastRefreshedAt with
  | none => false
  | some t =>
    (ds.refreshRate == "daily" && decide (now - t < 20 * (1000 * 60 * 60))) ||
    (ds.refreshRate == "weekly" && decide (now - t < 120 * (1000 * 60 * 60)))

/-- One iteration of the dataset loop in `refreshDatasets`
(`inngest/functions/refreshDatasets.ts`).  Note that the `unchanged` branch
returns without any `dataset.update`, and that the snapshot branch also
persists `extractDataYear payload` into `latestSourceYear` when a year is
found. -/
def refreshDatasetsStep (now : Int) (fetched : Fetched) (createOk pointerOk : Bool)
    (ds : Dataset) (st : Store) : StepResult :=
  if !hasFetcher ds.slug then
    { dataset := ds, store := st, status := "no_fetcher" }
  else if inngestGate now ds then
    { dataset := ds, store := st, status := "skipped_too_recent" }
  else
    match fetched with
    | .error msg => { dataset := ds, store := st, status := "error: " ++ msg }
    | .ok payload =>
      let hash := sourceHash payload
      if hashUnchanged ds st hash then
        { dataset := ds, store := st, status := "unchanged" }
      else if !createOk then
        { dataset := ds, store := st, status := "error: snapshot.create failed" }
      else
        let created := createSnapshot st ds.id payload hash now
        if !pointerOk then
          { dataset := ds, store := created.2, status := "error: dataset.update failed" }
        else
          { dataset := { ds with latestSnapshotId := some created.1.id,
                                 lastRefreshedAt := some now,
                                 latestSourceYear :=
                                   match extractDataYear payload with
                                   | some y => some y
                                   | none => ds.latestSourceYear },
            store := created.2, status := "refreshed" }

/-- The single-dataset refresh of `GET` in `app/api/refresh/[slug]/route.ts`
(after auth), for a dataset found by slug.  There is no rate gate at all;
`no_fetcher` / `error` stand for the 404 / 500 JSON responses.  The
`unchanged` branch returns without any `dataset.update`. -/
def refreshOneStep (now : Int) (fetched : Fetched) (createOk pointerOk : Bool)
    (ds : Dataset) (st : Store) : StepResult :=
  if !hasFetcher ds.slug then
    { dataset := ds, store := st, status := "no_fetcher" }
  else
    match fetched with
    | .error msg => { dataset := ds, store := st, status := "error", errMsg := some msg }
    | .ok payload =>
      let hash := sourceHash payload
      if hashUnchanged ds st hash then
        { dataset := ds, store := st, status := "unchanged" }
      else if !createOk then
        { dataset := ds, store := st, status := "error",
          errMsg := some "snapshot.create failed" }
      else
        let created := createSnapshot st ds.id payload hash now
        if !pointerOk then
          { dataset := ds, store := created.2, status := "error",
            errMsg := some "dataset.update failed" }
        else
          { dataset := { ds with latestSnapshotId := some created.1.id,
                                 lastRefreshedAt := some now },
            store := created.2, status := "refreshed" }

/-! ## Watchdog probes (`lib/datasets/watchdog.ts`)

Each probe performs one HTTP fetch; the fetch outcome is made an explicit
input: the promise may reject (`netError`, carrying the thrown error's
message), resolve with `res.ok` false (`httpError`, carrying the status),
or resolve OK with a parsed JSON body.  `checkedAt` (an ISO timestamp
string in the source) is carried as the run's clock value. -/

inductive FetchOutcome (β : Type) where
  | netError (msg : String)
  | httpError (status : Nat)
  | ok (body : β)

structure WatchdogResult where
  slug : String
  changed : Bool
  previousYear : Option Int
  detectedYear : Option Int
  method : String
  checkedAt : Int
  error : Option String := none
  deriving DecidableEq

/-- Head commit of a GitHub commits response: the fields the probes read.
`year` is `commitDate.getFullYear()`, `month` is `commitDate.getMonth() + 1`,
`dateIso` is `commitDate.toISOString().slice(0, 10)`. -/
structure CommitInfo where
  dateIso : String
  year : Int
  month : Int
  message : String
  deriving DecidableEq

/-- Method string `GitHub commit: <date> — "<first 80 chars of message>"`. -/
def commitMethod (commit : CommitInfo) : String :=
  "GitHub commit: " ++ commit.dateIso ++ " — \"" ++
    String.mk (commit.message.toList.take 80) ++ "\""

/-- The change decision of `probeCO2Emissions` (`detectedYear` starts at
`currentYear`, `changed` at false): rule 1 fires when both years are truthy
and the mentioned year exceeds the current one; otherwise the
temporal-window rule fires for a truthy current year with a commit in or
after October of the current data year or later, and reports a change when
the commit year exceeds the current year or the commit month is at least
November. -/
def co2Decision (currentYear mentionedYear : Option Int) (commitYear commitMonth : Int) :
    Bool × Option Int :=
  if jsTruthyOptInt mentionedYear && jsTruthyOptInt currentYear &&
      decide (mentionedYear.getD 0 > currentYear.getD 0) then
    (true, mentionedYear)
  else if jsTruthyOptInt currentYear && decide (commitYear ≥ currentYear.getD 0) &&
      decide (commitMonth ≥ 10) then
    (decide (commitYear > currentYear.getD 0) || decide (commitMonth ≥ 11),
     some commitYear)
  else (false, currentYear)

/-- `probeCO2Emissions` of `lib/datasets/watchdog.ts`.  The body is the
parsed commits array (`none` models an empty array, whose missing head
commit raises `No commits found`).  The commit message is lowercased by the
source before the regex scan; digits are unaffected, so the scan is applied
to the message as carried. -/
def probeCO2Emissions (now : Int) (env : FetchOutcome (Option CommitInfo))
    (currentYear : Option Int) : WatchdogResult :=
  let slug := "co2-emissions"
  let body : Except String WatchdogResult :=
    match env with
    | .netError msg => .error msg
    | .httpError status => .error ("GitHub API " ++ toString status)
    | .ok none => .error "No commits found"
    | .ok (some commit) =>
      let mentionedYear : Option Int := (firstYear commit.message.toList).map Int.ofNat
      let decision := co2Decision currentYear mentionedYear commit.year commit.month
      .ok { slug := slug, changed := decision.1, previousYear := currentYear,
            detectedYear := decision.2, method := commitMethod commit, checkedAt := now }
  match body with
  | .ok r => r
  | .error e =>
    { slug := slug, changed := false, previousYear := currentYear, detectedYear := none,
      method := "GitHub API", checkedAt := now, error := some e }

/-- `probeOWIDEnergyData` of `lib/datasets/watchdog.ts` (the commit probe on
`owid/energy-data`, used for both `renewable-energy` and `ev-adoption`). -/
def probeOWIDEnergyData (now : Int) (slug : String) (env : FetchOutcome (Option CommitInfo))
    (currentYear : Option Int) : WatchdogResult :=
  let body : Except String WatchdogResult :=
    match env with
    | .netError msg => .error msg
    | .httpError status => .error ("GitHub API " ++ toString status)
    | .ok none => .error "No commits found"
    | .ok (some commit) =>
      let mentionedYear : Option Int := (firstYear commit.message.toList).map Int.ofNat
      let decision : Bool × Option Int :=
        if jsTruthyOptInt mentionedYear && jsTruthyOptInt currentYear &&
            decide (mentionedYear.getD 0 > currentYear.getD 0) then
          (true, mentionedYear)
        else if !jsTruthyOptInt currentYear && jsTruthyOptInt mentionedYear then
          (true, mentionedYear)
        else (false, currentYear)
      .ok { slug := slug, changed := decision.1, previousYear := currentYear,
            detectedYear := decision.2, method := commitMethod commit, checkedAt := now }
  match body with
  | .ok r => r
  | .error e =>
    { slug := slug, changed := false, previousYear := currentYear, detectedYear := none,
      method := "GitHub API", checkedAt := now, error := some e }

/-- One row of a World Bank indicator response; `value` is the numeric JSON
field, `none` when `null` (the probe only consults its nullness). -/
structure WBEntry where
  date : String
  value : Option Jv

/-- `probeWorldBankIndicator` of `lib/datasets/watchdog.ts`.  The body is
`json[1]`: `none` when absent, otherwise the entry list.  An absent or
empty `json[1]` is reported as `no data in range` WITHOUT an error field. -/
def probeWorldBankIndicator (now : Int) (slug indicator : String)
    (env : FetchOutcome (Option (List WBEntry))) (currentYear : Option Int) :
    WatchdogResult :=
  let body : Except String WatchdogResult :=
    match env with
    | .netError msg => .error msg
    | .httpError status => .error ("World Bank API " ++ toString status)
    | .ok rows =>
      match rows with
      | none =>
        .ok { slug := slug, changed := false, previousYear := currentYear,
              detectedYear := none,
              method := "World Bank " ++ indicator ++ ": no data in range",
              checkedAt := now }
      | some [] =>
        .ok { slug := slug, changed := false, previousYear := currentYear,
              detectedYear := none,
              method := "World Bank " ++ indicator ++ ": no data in range",
              checkedAt := now }
      | some entries =>
        let latestYear : Int := entries.foldl
          (fun acc e =>
            match e.value with
            | some _ =>
              match jsParseInt e.date with
              | some y => if y > acc then y else acc
              | none => acc
            | none => acc) 0
        let changed :=
          match currentYear with
          | some cy => decide (latestYear > cy)
          | none => false
        .ok { slug := slug, changed := changed, previousYear := currentYear,
              detectedYear := if latestYear == 0 then none else some latestYear,
              method := "World Bank " ++ indicator ++ ": latest data year = " ++
                (if latestYear == 0 then "none" else toString latestYear),
              checkedAt := now }
  match body with
  | .ok r => r
  | .error e =>
    { slug := slug, changed := false, previousYear := currentYear, detectedYear := none,
      method := "World Bank " ++ indicator, checkedAt := now, error := some e }

/-- `probeWealthInequality` of `lib/datasets/watchdog.ts`.  The body is the
year-key lists of the object-valued members of the WID response (non-object
members, which the source skips, are not represented). -/
def probeWealthInequality (now : Int) (env : FetchOutcome (List (List String)))
    (currentYear : Option Int) : WatchdogResult :=
  let slug := "wealth-inequality"
  let body : Except String WatchdogResult :=
    match env with
    | .netError msg => .error msg
    | .httpError status => .error ("WID API " ++ toString status)
    | .ok keyLists =>
      let latestYear : Int := keyLists.foldl
        (fun acc keys => keys.foldl
          (fun acc2 k =>
            match jsParseInt k with
            | some y => if y > acc2 then y else acc2
            | none => acc2) acc) 0
      let changed :=
        match currentYear with
        | some cy => decide (latestYear > cy)
        | none => false
      .ok { slug := slug, changed := changed, previousYear := currentYear,
            detectedYear := if latestYear == 0 then none else some latestYear,
            method := "WID API shweal: latest year = " ++
              (if latestYear == 0 then "none" else toString latestYear),
            checkedAt := now }
  match body with
  | .ok r => r
  | .error e =>
    { slug := slug, changed := false, previousYear := currentYear, detectedYear := none,
      method := "WID API", checkedAt := now, error := some e }

/-- The seven fetches a `runAllProbes` run performs, one per launched probe
(the two `probeOWIDEnergyData` calls fetch independently). -/
structure ProbeEnv where
  co2 : FetchOutcome (Option CommitInfo)
  renewable : FetchOutcome (Option CommitInfo)
  ev : FetchOutcome (Option CommitInfo)
  military : FetchOutcome (Option (List WBEntry))
  internet : FetchOutcome (Option (List WBEntry))
  smartphone : FetchOutcome (Option (List WBEntry))
  wealth : FetchOutcome (List (List String))

/-- `runAllProbes` of `lib/datasets/watchdog.ts`.  The seven probes are
joined with `Promise.allSettled`; every probe catches its own errors and
resolves, so each settled slot is `fulfilled` and carries the probe's
`WatchdogResult` (the `rejected` mapping in the source is unreachable).
`knownYears` models the `Record` with its `?? null` lookups. -/
def runAllProbes (now : Int) (env : ProbeEnv) (knownYears : String → Option Int) :
    List WatchdogResult :=
  [probeCO2Emissions now env.co2 (knownYears "co2-emissions"),
   probeOWIDEnergyData now "renewable-energy" env.renewable (knownYears "renewable-energy"),
   probeOWIDEnergyData now "ev-adoption" env.ev (knownYears "ev-adoption"),
   probeWorldBankIndicator now "military-spending" "MS.MIL.XPND.CD" env.military
     (knownYears "military-spending"),
   probeWorldBankIndicator now "internet-access" "IT.NET.USER.ZS" env.internet
     (knownYears "internet-access"),
   probeWorldBankIndicator now "smartphone-access" "IT.CEL.SETS" env.smartphone
     (knownYears "smartphone-access"),
   probeWealthInequality now env.wealth (knownYears "wealth-inequality")]

/-- The slugs with a registered probe (the `switch` cases of `runProbe`). -/
def knownProbeSlugs : List String :=
  ["co2-emissions", "renewable-energy", "ev-adoption", "military-spending",
   "internet-access", "smartphone-access", "wealth-inequality"]

/-- `runProbe` of `lib/datasets/watchdog.ts`: dispatch one probe by slug;
the `default` case reports `no probe available` with no error. -/
def runProbe (now : Int) (env : ProbeEnv) (slug : String) (currentYear : Option Int) :
    WatchdogResult :=
  if slug == "co2-emissions" then probeCO2Emissions now env.co2 currentYear
  else if slug == "renewable-energy" then probeOWIDEnergyData now slug env.renewable currentYear
  else if slug == "ev-adoption" then probeOWIDEnergyData now slug env.ev currentYear
  else if slug == "military-spending" then
    probeWorldBankIndicator now slug "MS.MIL.XPND.CD" env.military currentYear
  else if slug == "internet-access" then
    probeWorldBankIndicator now slug "IT.NET.USER.ZS" env.internet currentYear
  else if slug == "smartphone-access" then
    probeWorldBankIndicator now slug "IT.CEL.SETS" env.smartphone currentYear
  else if slug == "wealth-inequality" then probeWealthInequality now env.wealth currentYear
  else
    { slug := slug, changed := false, previousYear := currentYear, detectedYear := none,
      method := "no probe available", checkedAt := now }

/-! ## Watchdog orchestrator (`inngest/functions/watchForNewPublications.ts`) -/

/-- Step `update-watchdog-timestamps`: `dataset.updateMany` setting
`lastWatchdogAt` on every dataset whose slug is among the probed slugs,
whatever the probe outcomes were. -/
def updateWatchdogTimestamps (now : Int) (results : List WatchdogResult)
    (datasets : List Dataset) : List Dataset :=
  datasets.map fun ds =>
    if (results.map WatchdogResult.slug).contains ds.slug then
      { ds with lastWatchdogAt := some now }
    else ds

structure WatchdogStepResult where
  dataset : Option Dataset
  store : Store
  status : String

/-- Body of the `refresh-new-data-<slug>` step run for one probe with
`changed=true` and no error.  `dsFound` is
`datasets.find(d => d.slug === probe.slug)`.  There is no rate-gate check;
when the fresh payload hashes identically to the stored snapshot the
probe's truthy `detectedYear` is still persisted, and on a full refresh
`latestSourceYear` is set to `probe.detectedYear` unconditionally. -/
def watchdogRefreshStep (now : Int) (probe : WatchdogResult) (dsFound : Option Dataset)
    (fetched : Fetched) (createOk pointerOk : Bool) (st : Store) : WatchdogStepResult :=
  match dsFound with
  | none => { dataset := none, store := st, status := "no_dataset_or_fetcher" }
  | some ds =>
    if !hasFetcher ds.slug then
      { dataset := some ds, store := st, status := "no_dataset_or_fetcher" }
    else
      match fetched with
      | .error msg => { dataset := some ds, store := st, status := "error: " ++ msg }
      | .ok payload =>
        let hash := sourceHash payload
        if hashUnchanged ds st hash then
          if jsTruthyOptInt probe.detectedYear then
            { dataset := some { ds with latestSourceYear := probe.detectedYear },
              store := st, status := "year_updated_data_unchanged" }
          else
            { dataset := some ds, store := st, status := "year_updated_data_unchanged" }
        else if !createOk then
          { dataset := some ds, store := st, status := "error: snapshot.create failed" }
        else
          let created := createSnapshot st ds.id payload hash now
          if !pointerOk then
            { dataset := some ds, store := created.2,
              status := "error: dataset.update failed" }
          else
            { dataset := some { ds with latestSnapshotId := some created.1.id,
                                        lastRefreshedAt := some now,
                                        latestSourceYear := probe.detectedYear },
              store := created.2, status := "refreshed_with_new_year" }

/-! ## Source adapters cited by the fallback-chain claim
(`lib/datasets/registry.ts`) -/

/-- Price data as read out of a market API response; `price` carries the
already-rounded `Math.round(... .usd)` dollar value, `changeSuffix` the
formatted 24-hour-change display suffix. -/
structure PriceData where
  price : Int
  changeSuffix : String
  deriving DecidableEq

/-- The Bitcoin payload literal each branch of `fetchBitcoinPrice` returns
(they differ only in the `notes` tail). -/
def btcPayload (price : Int) (notes : String) : Jv :=
  Jv.jobj (jfields
    [("unitLabel", .jstr "USD per BTC"),
     ("dotValue", .jnum "1000"),
     ("total", .jnum (toString price)),
     ("categories", .jarr (jlist
       [Jv.jobj (jfields
         [("key", .jstr "price"), ("label", .jstr "Bitcoin Price"),
          ("value", .jnum (toString price))])])),
     ("notes", .jstr notes)])

/-- `fetchBitcoinPrice` of `lib/datasets/registry.ts`: CoinGecko, then
Coinlore, then CoinDesk.  For the first two sources a thrown fetch/parse
error is swallowed by `catch` and a non-OK response falls out of the `if`,
both falling through to the next source; at CoinDesk a non-OK response
throws `All Bitcoin APIs failed` and a rejected fetch propagates uncaught. -/
def fetchBitcoinPrice (timestamp : String)
    (gecko coinlore coindesk : FetchOutcome PriceData) : Except String Jv :=
  match gecko with
  | .ok pd =>
    .ok (btcPayload pd.price
      ("Live price as of " ++ timestamp ++ " UTC via CoinGecko" ++ pd.changeSuffix ++ "."))
  | _ =>
    match coinlore with
    | .ok pd =>
      .ok (btcPayload pd.price
        ("Live price as of " ++ timestamp ++ " UTC via Coinlore " ++ pd.changeSuffix ++ "."))
    | _ =>
      match coindesk with
      | .ok pd =>
        .ok (btcPayload pd.price ("Live price as of " ++ timestamp ++ " UTC via CoinDesk."))
      | .httpError status =>
        .error ("All Bitcoin APIs failed. Last status: " ++ toString status)
      | .netError msg => .error msg

/-- The hardcoded payload `fetchSolarActivityToday` returns whenever the
NOAA request fails, errors, or lacks a usable `ssn` field. -/
def solarFallbackPayload : Jv :=
  Jv.jobj (jfields
    [("unitLabel", .jstr "sunspots"),
     ("dotValue", .jnum "1"),
     ("total", .jnum "120"),
     ("categories", .jarr (jlist
       [Jv.jobj (jfields
         [("key", .jstr "sunspots"), ("label", .jstr "Active Sunspots today"),
          ("value", .jnum "120")])])),
     ("notes", .jstr ("NOAA Space Weather Prediction Center. Sunspot number varies " ++
       "daily. Peak solar maximum pushes this well over 100+."))])

/-- The live payload of `fetchSolarActivityToday` for a measured (rounded)
sunspot number. -/
def solarLivePayload (ssn : Int) : Jv :=
  Jv.jobj (jfields
    [("unitLabel", .jstr "sunspots"),
     ("dotValue", .jnum "1"),
     ("total", .jnum (toString ssn)),
     ("categories", .jarr (jlist
       [Jv.jobj (jfields
         [("key", .jstr "sunspots"), ("label", .jstr "Active Sunspots today"),
          ("value", .jnum (toString ssn))])])),
     ("notes", .jstr ("NOAA Space Weather Prediction Center. Latest measured monthly " ++
       "sunspot number: " ++ toString ssn ++ "."))])

/-- `fetchSolarActivityToday` of `lib/datasets/registry.ts`.  The body is
the NOAA observation array's last element (`none` for an empty array) with
its optional `ssn` field (already `Math.round`ed).  Every failure mode —
rejected fetch (`catch \x7b \x7d`), non-OK status, empty array, missing
`ssn` — falls through to the hardcoded fallback payload; the adapter never
throws. -/
def fetchSolarActivityToday (env : FetchOutcome (Option (Option Int))) :
    Except String Jv :=
  match env with
  | .ok (some (some ssn)) => .ok (solarLivePayload ssn)
  | _ => .ok solarFallbackPayload

/-! ## Concrete fixtures for the counterexamples and witnesses -/

/-- A concrete normalized payload (the Bitcoin adapter's shape). -/
def samplePayload : Jv :=
  Jv.jobj (jfields
    [("unitLabel", .jstr "USD per BTC"),
     ("dotValue", .jnum "1000"),
     ("total", .jnum "91000"),
     ("categories", .jarr (jlist
       [Jv.jobj (jfields
         [("key", .jstr "price"), ("label", .jstr "Bitcoin Price"),
          ("value", .jnum "91000")])]))])

/-- A stored snapshot holding exactly `samplePayload`. -/
def storedSnapshot : Snapshot :=
  { id := 1, datasetId := 1, payload := samplePayload,
    sourceHash := sourceHash samplePayload, collectedAt := 0 }

def sampleStore : Store := { snapshots := [storedSnapshot], nextId := 2 }

def emptyStore : Store := { snapshots := [], nextId := 1 }

/-- A dataset whose latest snapshot is `storedSnapshot`. -/
def bitcoinDataset : Dataset :=
  { id := 1, slug := "bitcoin-price", refreshRate := "hourly",
    lastRefreshedAt := some 0, latestSnapshotId := some 1 }

/-- A weekly dataset last refreshed at time `0`. -/
def weeklyDataset : Dataset :=
  { id := 3, slug := "co2-emissions", refreshRate := "weekly",
    lastRefreshedAt := some 0 }

/-- A probe environment in which several fetches fail. -/
def probeEnvFailing : ProbeEnv :=
  { co2 := .netError "fetch failed", renewable := .httpError 500, ev := .ok none,
    military := .ok (some []), internet := .netError "fetch failed",
    smartphone := .httpError 403, wealth := .netError "fetch failed" }

/-- Payload with the adapters' canonical key order. -/
def payloadKeyOrderA : Jv :=
  Jv.jobj (jfields
    [("unitLabel", .jstr "people"),
     ("dotValue", .jnum "1000"),
     ("total", .jnum "5000"),
     ("categories", .jarr (jlist
       [Jv.jobj (jfields
         [("key", .jstr "a"), ("label", .jstr "A"), ("value", .jnum "5000")])]))])

/-- The same field values as `payloadKeyOrderA`, with the first two keys
inserted in the opposite order. -/
def payloadKeyOrderB : Jv :=
  Jv.jobj (jfields
    [("dotValue", .jnum "1000"),
     ("unitLabel", .jstr "people"),
     ("total", .jnum "5000"),
     ("categories", .jarr (jlist
       [Jv.jobj (jfields
         [("key", .jstr "a"), ("label", .jstr "A"), ("value", .jnum "5000")])]))])

/-! ## Failure predicates and claim-conclusion abbreviations -/

/-- Failure of one fetch attempt: the promise rejected or the response was
not OK. -/
def fetchFailed {β : Type} : FetchOutcome β → Bool
  | .ok _ => false
  | _ => true

/-- The NOAA solar-cycle response yields no usable sunspot number (failed
fetch, non-OK status, empty array, or missing `ssn`). -/
def solarUnusable : FetchOutcome (Option (Option Int)) → Bool
  | .ok (some (some _)) => false
  | _ => true

/-- A probe result records a failure: no change reported and the error
field populated with message `e`. -/
def failsWith (r : WatchdogResult) (e : String) : Prop :=
  r.changed = false ∧ r.error = some e

/-- Conclusion of the amended probe-failure-isolation claim (C3), so the
witness can restate it at concrete inputs. -/
def Claim3Conclusion (now : Int) (msg : String) (status : Nat)
    (slug indicator : String) (cy : Option Int) (env : ProbeEnv)
    (ky : String → Option Int) : Prop :=
  failsWith (probeCO2Emissions now (.netError msg) cy) msg ∧
  failsWith (probeCO2Emissions now (.httpError status) cy)
    ("GitHub API " ++ toString status) ∧
  failsWith (probeCO2Emissions now (.ok none) cy) "No commits found" ∧
  failsWith (probeOWIDEnergyData now slug (.netError msg) cy) msg ∧
  failsWith (probeOWIDEnergyData now slug (.httpError status) cy)
    ("GitHub API " ++ toString status) ∧
  failsWith (probeOWIDEnergyData now slug (.ok none) cy) "No commits found" ∧
  failsWith (probeWorldBankIndicator now slug indicator (.netError msg) cy) msg ∧
  failsWith (probeWorldBankIndicator now slug indicator (.httpError status) cy)
    ("World Bank API " ++ toString status) ∧
  failsWith (probeWealthInequality now (.netError msg) cy) msg ∧
  failsWith (probeWealthInequality now (.httpError status) cy)
    ("WID API " ++ toString status) ∧
  (probeWorldBankIndicator now slug indicator (.ok (some [])) cy).changed = false ∧
  (probeWorldBankIndicator now slug indicator (.ok (some [])) cy).error = none ∧
  msg ≠ "" ∧
  ("GitHub API " ++ toString status) ≠ "" ∧
  ("World Bank API " ++ toString status) ≠ "" ∧
  ("WID API " ++ toString status) ≠ "" ∧
  ("No commits found" : String) ≠ "" ∧
  (runAllProbes now env ky).length = 7 ∧
  (∀ r ∈ runAllProbes now env ky, r.error.isSome = true → r.changed = false)

/-- Conclusion of the amended idempotence claim (C1): a second fetch of an
identical payload creates no snapshot on any refresh path; the API route
bumps `lastRefreshedAt`, while the scheduled run and the single-dataset
route leave the dataset row entirely untouched. -/
def Claim1Conclusion (now : Int) (p : Jv) (ds : Dataset) (st : Store)
    (cOk pOk : Bool) : Prop :=
  (refreshRouteStep false now (.ok p) cOk pOk ds st =
    { dataset := { ds with lastRefreshedAt := some now }, store := st,
      status := "unchanged" }) ∧
  (refreshDatasetsStep now (.ok p) cOk pOk ds st =
    { dataset := ds, store := st, status := "unchanged" }) ∧
  (refreshOneStep now (.ok p) cOk pOk ds st =
    { dataset := ds, store := st, status := "unchanged" })

/-- Conclusion of the amended rate-gating claim (C4): a weekly dataset is
skipped at 48 h by both batch paths; at 96 h the API route attempts the
refresh (its weekly gate is 72 h) while the scheduled inngest run still
skips (its weekly gate is 120 h). -/
def Claim4Conclusion (fetched : Fetched) (ds : Dataset) (st : Store)
    (cOk pOk : Bool) (now48 now96 : Int) : Prop :=
  (refreshRouteStep false now48 fetched cOk pOk ds st =
    { dataset := ds, store := st, status := "skipped_too_recent" }) ∧
  ((refreshRouteStep false now96 fetched cOk pOk ds st).status = "refreshed" ∨
   (refreshRouteStep false now96 fetched cOk pOk ds st).status = "unchanged" ∨
   (refreshRouteStep false now96 fetched cOk pOk ds st).status = "error") ∧
  (refreshDatasetsStep now48 fetched cOk pOk ds st =
    { dataset := ds, store := st, status := "skipped_too_recent" }) ∧
  (refreshDatasetsStep now96 fetched cOk pOk ds st =
    { dataset := ds, store := st, status := "skipped_too_recent" })

/-- Conclusion of the watchdog-bypass claim (C5), for one alternative
`lastRefreshedAt` value `t'`: the watchdog-triggered single-dataset path
never rate-skips, its outcome status ignores `lastRefreshedAt`, and after a
completed step the dataset's `latestSourceYear` equals the probe's
`detectedYear` in both the unchanged-content and the new-snapshot branch. -/
def Claim5Conclusion (now : Int) (probe : WatchdogResult) (ds : Dataset) (st : Store)
    (p : Jv) (y : Int) (t' : Option Int) : Prop :=
  (watchdogRefreshStep now probe (some ds) (.ok p) true true st).status ≠
    "skipped_too_recent" ∧
  ((watchdogRefreshStep now probe (some { ds with lastRefreshedAt := t' }) (.ok p)
      true true st).status =
    (watchdogRefreshStep now probe (some ds) (.ok p) true true st).status) ∧
  ((watchdogRefreshStep now probe (some ds) (.ok p) true true st).dataset.map
      Dataset.latestSourceYear = some (some y)) ∧
  ((watchdogRefreshStep now probe (some ds) (.ok p) true true st).status =
      "year_updated_data_unchanged" ∨
   (watchdogRefreshStep now probe (some ds) (.ok p) true true st).status =
      "refreshed_with_new_year")

/-- Conclusion of the CO₂-probe precedence claim (C6), for a previous year
`py` and the mentioned year `my` found in the commit message: if the
mentioned year equals the previous year, a commit of year at least `py`
with month ≥ 11 still reports a change (with the commit year detected);
and whenever the mentioned year strictly exceeds the previous year the
mentioned-year rule wins, reporting a change with the mentioned year
detected. -/
def Claim6Conclusion (now : Int) (commit : CommitInfo) (py : Int) (my : Nat) : Prop :=
  ((Int.ofNat my = py) → commit.year ≥ py → commit.month ≥ 11 →
    (probeCO2Emissions now (.ok (some commit)) (some py)).changed = true ∧
    (probeCO2Emissions now (.ok (some commit)) (some py)).detectedYear =
      some commit.year) ∧
  ((py < Int.ofNat my) →
    (probeCO2Emissions now (.ok (some commit)) (some py)).changed = true ∧
    (probeCO2Emissions now (.ok (some commit)) (some py)).detectedYear =
      some (Int.ofNat my))

/-- The dataset's latest-snapshot pointer refers to a row that exists in
the snapshot store. -/
def pointerValid (ds : Dataset) (st : Store) : Prop :=
  ∀ i, ds.latestSnapshotId = some i → ∃ s ∈ st.snapshots, s.id = i

/-- Conclusion of the snapshot-pointer-safety claim (C8): all four write
paths preserve pointer validity, for every adapter outcome and every
combination of database-call failures. -/
def Claim8Conclusion (force : Bool) (now : Int) (fetched : Fetched) (cOk pOk : Bool)
    (ds : Dataset) (st : Store) (probe : WatchdogResult) : Prop :=
  pointerValid (refreshRouteStep force now fetched cOk pOk ds st).dataset
    (refreshRouteStep force now fetched cOk pOk ds st).store ∧
  pointerValid (refreshDatasetsStep now fetched cOk pOk ds st).dataset
    (refreshDatasetsStep now fetched cOk pOk ds st).store ∧
  pointerValid (refreshOneStep now fetched cOk pOk ds st).dataset
    (refreshOneStep now fetched cOk pOk ds st).store ∧
  (∀ ds', (watchdogRefreshStep now probe (some ds) fetched cOk pOk st).dataset = some ds' →
    pointerValid ds' (watchdogRefreshStep now probe (some ds) fetched cOk pOk st).store)

/-- A probe result reporting new data for `co2-emissions`
(`changed=true`, year 2023 → 2024). -/
def sampleProbeResult : WatchdogResult :=
  { slug := "co2-emissions", changed := true, previousYear := some 2023,
    detectedYear := some 2024, method := "GitHub commit: 2024-11-15", checkedAt := 0 }

/-- The head commit of the spec's end-to-end scenario: message
`update data through 2024` (as lowercased by the probe) committed
2024-11-15. -/
def novemberCommit : CommitInfo :=
  { dateIso := "2024-11-15", year := 2024, month := 11,
    message := "update data through 2024" }

/-! ## Claim C2 — fingerprint stability -/

/-- C2 counterexample: two payload objects with identical field values —
every property lookup agrees, including the absent `notes` — whose keys
were inserted in a different order produce different `sourceHash`
fingerprints, because `JSON.stringify` serializes keys in insertion order
and the MD5 is taken over that serialization. -/
theorem claim2_counterexample :
    jvField payloadKeyOrderA "unitLabel" = jvField payloadKeyOrderB "unitLabel" ∧
    jvField payloadKeyOrderA "dotValue" = jvField payloadKeyOrderB "dotValue" ∧
    jvField payloadKeyOrderA "total" = jvField payloadKeyOrderB "total" ∧
    jvField payloadKeyOrderA "categories" = jvField payloadKeyOrderB "categories" ∧
    jvField payloadKeyOrderA "notes" = jvField payloadKeyOrderB "notes" ∧
    sourceHash payloadKeyOrderA ≠ sourceHash payloadKeyOrderB := by
  refine ⟨rfl, rfl, rfl, rfl, rfl, by decide⟩

/-- C2 (amended): the fingerprint is a deterministic function of the
payload's JSON serialization — payloads that serialize identically (in
particular, payloads with identical field values constructed in the same
key-insertion order, as every adapter builds them) hash identically on
every execution path, since all paths compute the same
`md5(JSON.stringify(payload))`. -/
theorem claim2_hash_deterministic (p q : Jv) (h : stringify p = stringify q) :
    sourceHash p = sourceHash q := by
  unfold sourceHash
  rw [h]

theorem claim2_witness :
    stringify payloadKeyOrderA = stringify payloadKeyOrderA ∧
    sourceHash payloadKeyOrderA = sourceHash payloadKeyOrderA :=
  ⟨rfl, claim2_hash_deterministic payloadKeyOrderA payloadKeyOrderA rfl⟩

/-! ## Claim C7 — adapters fail loudly -/

/-- C7 counterexample: `fetchSolarActivityToday`, with its only source
failing outright, does not raise — it returns the hardcoded fallback
payload, so an adapter can exhaust its sources and still return a
fabricated payload. -/
theorem claim7_counterexample :
    fetchSolarActivityToday (.netError "fetch failed") = .ok solarFallbackPayload := rfl

/-- C7 (amended): `fetchBitcoinPrice` does fail loudly — whenever CoinGecko,
Coinlore and CoinDesk all fail, it raises and returns no payload — but the
guarantee is not adapter-universal: `fetchSolarActivityToday` answers every
failure of its NOAA source with the hardcoded fallback payload and never
raises. -/
theorem claim7_fallback_behavior (timestamp : String)
    (gecko coinlore coindesk : FetchOutcome PriceData)
    (h1 : fetchFailed gecko = true) (h2 : fetchFailed coinlore = true)
    (h3 : fetchFailed coindesk = true)
    (env : FetchOutcome (Option (Option Int))) (h4 : solarUnusable env = true) :
    (∃ e, fetchBitcoinPrice timestamp gecko coinlore coindesk = .error e) ∧
    fetchSolarActivityToday env = .ok solarFallbackPayload := by
  constructor
  · cases gecko <;> cases coinlore <;> cases coindesk <;>
      simp_all [fetchBitcoinPrice, fetchFailed]
  · rcases env with m | s | b
    · rfl
    · rfl
    · rcases b with _ | b2
      · rfl
      · rcases b2 with _ | n
        · rfl
        · simp [solarUnusable] at h4

theorem claim7_witness :
    fetchFailed (FetchOutcome.netError (β := PriceData) "fetch failed") = true ∧
    fetchFailed (FetchOutcome.httpError (β := PriceData) 429) = true ∧
    fetchFailed (FetchOutcome.httpError (β := PriceData) 500) = true ∧
    solarUnusable (.netError "fetch failed") = true ∧
    ((∃ e, fetchBitcoinPrice "2026-02-03T06:00" (.netError "fetch failed")
        (.httpError 429) (.httpError 500) = .error e) ∧
     fetchSolarActivityToday (.netError "fetch failed") = .ok solarFallbackPayload) :=
  ⟨rfl, rfl, rfl, rfl,
   claim7_fallback_behavior "2026-02-03T06:00" (.netError "fetch failed") (.httpError 429)
     (.httpError 500) rfl rfl rfl (.netError "fetch failed") rfl⟩

/-! ## Claim C10 — probe-less slugs -/

/-- C10: `runProbe` on a slug with no registered probe never throws and
returns the `no probe available` result: `changed=false`,
`detectedYear=null`, `previousYear=currentYear`, no error field. -/
theorem claim10_runProbe_default (now : Int) (env : ProbeEnv) (slug : String)
    (currentYear : Option Int) (h : slug ∉ knownProbeSlugs) :
    runProbe now env slug currentYear =
      { slug := slug, changed := false, previousYear := currentYear, detectedYear := none,
        method := "no probe available", checkedAt := now, error := none } := by
  simp only [knownProbeSlugs, List.mem_cons, List.not_mem_nil, or_false, not_or] at h
  obtain ⟨h1, h2, h3, h4, h5, h6, h7⟩ := h
  simp [runProbe, beq_iff_eq, h1, h2, h3, h4, h5, h6, h7]

theorem claim10_witness :
    "wikipedia-pageviews" ∉ knownProbeSlugs ∧
    runProbe 0 probeEnvFailing "wikipedia-pageviews" none =
      { slug := "wikipedia-pageviews", changed := false, previousYear := none,
        detectedYear := none, method := "no probe available", checkedAt := 0,
        error := none } :=
  ⟨by decide, claim10_runProbe_default 0 probeEnvFailing "wikipedia-pageviews" none (by decide)⟩

/-! ## Probe bookkeeping lemmas (shared by C3 and C9) -/

theorem probeCO2_slug (now : Int) (e : FetchOutcome (Option CommitInfo))
    (cy : Option Int) : (probeCO2Emissions now e cy).slug = "co2-emissions" := by
  rcases e with m | s | b
  · rfl
  · rfl
  · rcases b with _ | c <;> rfl

theorem probeOWID_slug (now : Int) (slug : String) (e : FetchOutcome (Option CommitInfo))
    (cy : Option Int) : (probeOWIDEnergyData now slug e cy).slug = slug := by
  rcases e with m | s | b
  · rfl
  · rfl
  · rcases b with _ | c <;> rfl

theorem probeWB_slug (now : Int) (slug indicator : String)
    (e : FetchOutcome (Option (List WBEntry))) (cy : Option Int) :
    (probeWorldBankIndicator now slug indicator e cy).slug = slug := by
  rcases e with m | s | b
  · rfl
  · rfl
  · rcases b with _ | entries
    · rfl
    · rcases entries with _ | ⟨e0, rest⟩ <;> rfl

theorem probeWealth_slug (now : Int) (e : FetchOutcome (List (List String)))
    (cy : Option Int) : (probeWealthInequality now e cy).slug = "wealth-inequality" := by
  rcases e with m | s | b <;> rfl

theorem probeCO2_error_changed (now : Int) (e : FetchOutcome (Option CommitInfo))
    (cy : Option Int) (h : (probeCO2Emissions now e cy).error.isSome = true) :
    (probeCO2Emissions now e cy).changed = false := by
  rcases e with m | s | b
  · rfl
  · rfl
  · rcases b with _ | c
    · rfl
    · simp [probeCO2Emissions] at h

theorem probeOWID_error_changed (now : Int) (slug : String)
    (e : FetchOutcome (Option CommitInfo)) (cy : Option Int)
    (h : (probeOWIDEnergyData now slug e cy).error.isSome = true) :
    (probeOWIDEnergyData now slug e cy).changed = false := by
  rcases e with m | s | b
  · rfl
  · rfl
  · rcases b with _ | c
    · rfl
    · simp [probeOWIDEnergyData] at h

theorem probeWB_error_changed (now : Int) (slug indicator : String)
    (e : FetchOutcome (Option (List WBEntry))) (cy : Option Int)
    (h : (probeWorldBankIndicator now slug indicator e cy).error.isSome = true) :
    (probeWorldBankIndicator now slug indicator e cy).changed = false := by
  rcases e with m | s | b
  · rfl
  · rfl
  · rcases b with _ | entries
    · simp [probeWorldBankIndicator] at h
    · rcases entries with _ | ⟨e0, rest⟩ <;> simp [probeWorldBankIndicator] at h

theorem probeWealth_error_changed (now : Int) (e : FetchOutcome (List (List String)))
    (cy : Option Int) (h : (probeWealthInequality now e cy).error.isSome = true) :
    (probeWealthInequality now e cy).changed = false := by
  rcases e with m | s | b
  · rfl
  · rfl
  · simp [probeWealthInequality] at h

/-! ## Claim C3 — probe failure isolation -/

/-- C3 counterexample: a World Bank probe that cannot complete because the
requested window holds no data returns `changed=false` but does NOT
populate `error` — the `no data in range` outcome is reported without an
error field, against the claim that every non-completing probe carries
one. -/
theorem claim3_counterexample :
    (probeWorldBankIndicator 0 "military-spending" "MS.MIL.XPND.CD" (.ok (some []))
        (some 2023)).changed = false ∧
    (probeWorldBankIndicator 0 "military-spending" "MS.MIL.XPND.CD" (.ok (some []))
        (some 2023)).error = none :=
  ⟨rfl, rfl⟩

/-- C3 (amended): every probe failure that goes through a thrown error —
network error, non-OK HTTP status, malformed commits response — yields
`changed=false` with `error` populated (and non-empty whenever the thrown
message is), and no probe throws past its boundary; the World Bank
`no data in range` outcome however yields `changed=false` with NO error
field.  `runAllProbes` always returns one result for each of its 7 launched
probes, and every returned result that carries an error has
`changed=false`. -/
theorem claim3_probe_failure_isolation (now : Int) (msg : String) (hmsg : msg ≠ "")
    (status : Nat) (slug indicator : String) (cy : Option Int)
    (env : ProbeEnv) (ky : String → Option Int) :
    Claim3Conclusion now msg status slug indicator cy env ky := by
  unfold Claim3Conclusion
  have hne : ∀ pre : String, pre.length ≠ 0 → pre ++ toString status ≠ "" := by
    intro pre hpre h
    have h2 := congrArg String.length h
    rw [String.length_append, show ("" : String).length = 0 from rfl] at h2
    omega
  refine ⟨⟨rfl, rfl⟩, ⟨rfl, rfl⟩, ⟨rfl, rfl⟩, ⟨rfl, rfl⟩, ⟨rfl, rfl⟩, ⟨rfl, rfl⟩,
    ⟨rfl, rfl⟩, ⟨rfl, rfl⟩, ⟨rfl, rfl⟩, ⟨rfl, rfl⟩, rfl, rfl, hmsg,
    hne "GitHub API " (by decide), hne "World Bank API " (by decide),
    hne "WID API " (by decide), by decide, rfl, ?_⟩
  intro r hr
  simp only [runAllProbes, List.mem_cons, List.not_mem_nil, or_false] at hr
  rcases hr with rfl | rfl | rfl | rfl | rfl | rfl | rfl
  · exact probeCO2_error_changed _ _ _
  · exact probeOWID_error_changed _ _ _ _
  · exact probeOWID_error_changed _ _ _ _
  · exact probeWB_error_changed _ _ _ _ _
  · exact probeWB_error_changed _ _ _ _ _
  · exact probeWB_error_changed _ _ _ _ _
  · exact probeWealth_error_changed _ _ _

theorem claim3_witness :
    ("fetch failed" : String) ≠ "" ∧
    Claim3Conclusion 0 "fetch failed" 500 "military-spending" "MS.MIL.XPND.CD"
      (some 2023) probeEnvFailing (fun _ => none) :=
  ⟨by decide,
   claim3_probe_failure_isolation 0 "fetch failed" (by decide) 500 "military-spending"
     "MS.MIL.XPND.CD" (some 2023) probeEnvFailing (fun _ => none)⟩

/-! ## Gate embeddings agree with the source's hour arithmetic -/

/-- The millisecond comparison used in the gate embeddings is exactly the
source's `hoursSinceRefresh < k` over exact rational arithmetic. -/
theorem hoursSince_lt_iff (now t : Int) (k : Nat) :
    hoursSince now t < (k : ℚ) ↔ now - t < (k : Int) * (1000 * 60 * 60) := by
  unfold hoursSince
  rw [div_lt_iff₀ (by norm_num)]
  constructor <;> intro h <;> exact_mod_cast h

/-- The hourly gate's `hoursSince < 0.5` matches its millisecond form. -/
theorem hoursSince_lt_half_iff (now t : Int) :
    hoursSince now t < 1 / 2 ↔ 2 * (now - t) < 1000 * 60 * 60 := by
  unfold hoursSince
  rw [div_lt_iff₀ (by norm_num),
    show (2 * (now - t) < 1000 * 60 * 60 ↔
        ((2 * (now - t) : Int) : ℚ) < ((1000 * 60 * 60 : Int) : ℚ)) from
      (Int.cast_lt (R := ℚ)).symm]
  push_cast
  constructor <;> intro h <;> linarith

/-! ## Claim C1 — idempotence of change detection -/

/-- C1 counterexample: feeding the scheduled inngest refresh path the same
normalized payload a second time creates no new snapshot, but ALSO does not
advance `lastRefreshedAt` — the dataset row is returned untouched, against
the claim that on the second call `lastRefreshedAt` advances on every
refresh execution path. -/
theorem claim1_counterexample :
    (refreshDatasetsStep 7200000 (.ok samplePayload) true true bitcoinDataset
        sampleStore).status = "unchanged" ∧
    (refreshDatasetsStep 7200000 (.ok samplePayload) true true bitcoinDataset
        sampleStore).dataset = bitcoinDataset ∧
    (refreshDatasetsStep 7200000 (.ok samplePayload) true true bitcoinDataset
        sampleStore).store.snapshots.length = 1 ∧
    bitcoinDataset.lastRefreshedAt = some 0 ∧ ¬ (0 : Int) = 7200000 := by
  refine ⟨rfl, rfl, rfl, rfl, by decide⟩

/-- C1 (amended): when the freshly fetched payload hashes identically to the
dataset's latest stored snapshot, no refresh path creates a snapshot or
moves `latestSnapshotId`; only the API batch route advances
`lastRefreshedAt`, while the scheduled run and the single-dataset route
leave the dataset row unchanged. -/
theorem claim1_idempotent_second_fetch (now : Int) (p : Jv) (ds : Dataset) (st : Store)
    (cOk pOk : Bool) (hf : hasFetcher ds.slug = true)
    (hmatch : hashUnchanged ds st (sourceHash p) = true)
    (hg1 : routeGate now ds = false) (hg2 : inngestGate now ds = false) :
    Claim1Conclusion now p ds st cOk pOk := by
  unfold Claim1Conclusion
  refine ⟨?_, ?_, ?_⟩
  · simp [refreshRouteStep, hf, hg1, hmatch]
  · simp [refreshDatasetsStep, hf, hg2, hmatch]
  · simp [refreshOneStep, hf, hmatch]

theorem claim1_witness :
    hasFetcher bitcoinDataset.slug = true ∧
    hashUnchanged bitcoinDataset sampleStore (sourceHash samplePayload) = true ∧
    routeGate 7200000 bitcoinDataset = false ∧
    inngestGate 7200000 bitcoinDataset = false ∧
    Claim1Conclusion 7200000 samplePayload bitcoinDataset sampleStore true true :=
  ⟨by decide, by decide, by decide, by decide,
   claim1_idempotent_second_fetch 7200000 samplePayload bitcoinDataset sampleStore
     true true (by decide) (by decide) (by decide) (by decide)⟩

/-! ## Claim C4 — rate gating -/

/-- C4 counterexample: a weekly dataset whose last refresh is 96 hours old
is still `skipped_too_recent` in the scheduled inngest refresh run — its
weekly gate is 120 h, so no adapter is invoked at 96 h on that path. -/
theorem claim4_counterexample :
    (refreshDatasetsStep 345600000 (.ok samplePayload) true true weeklyDataset
        emptyStore).status = "skipped_too_recent" ∧
    (refreshDatasetsStep 345600000 (.ok samplePayload) true true weeklyDataset
        emptyStore).dataset = weeklyDataset ∧
    (refreshDatasetsStep 345600000 (.error "down") true true weeklyDataset
        emptyStore).status = "skipped_too_recent" := by
  refine ⟨rfl, rfl, rfl⟩

/-- C4 (amended): with `force=false`, a weekly dataset refreshed 48 hours
ago is `skipped_too_recent` with its adapter uninvoked on both batch paths;
at 96 hours the API refresh route attempts the refresh (its weekly
threshold is 72 h), but the scheduled inngest run still skips it (its
weekly threshold is 120 h). -/
theorem claim4_rate_gating (fetched : Fetched) (ds : Dataset) (st : Store)
    (cOk pOk : Bool) (t now48 now96 : Int)
    (hr : ds.refreshRate = "weekly") (hf : hasFetcher ds.slug = true)
    (hlast : ds.lastRefreshedAt = some t)
    (h48 : now48 - t = 48 * 3600000) (h96 : now96 - t = 96 * 3600000) :
    Claim4Conclusion fetched ds st cOk pOk now48 now96 := by
  have g48 : routeGate now48 ds = true := by
    simp only [routeGate, hlast, hr, h48]; decide
  have g96 : routeGate now96 ds = false := by
    simp only [routeGate, hlast, hr, h96]; decide
  have i48 : inngestGate now48 ds = true := by
    simp only [inngestGate, hlast, hr, h48]; decide
  have i96 : inngestGate now96 ds = true := by
    simp only [inngestGate, hlast, hr, h96]; decide
  unfold Claim4Conclusion
  refine ⟨?_, ?_, ?_, ?_⟩
  · simp [refreshRouteStep, hf, g48]
  · rcases fetched with m | p
    · right; right; simp [refreshRouteStep, hf, g96]
    · by_cases hu : hashUnchanged ds st (sourceHash p) = true
      · right; left; simp [refreshRouteStep, hf, g96, hu]
      · cases cOk
        · right; right; simp [refreshRouteStep, hf, g96, hu]
        · cases pOk
          · right; right; simp [refreshRouteStep, hf, g96, hu]
          · left; simp [refreshRouteStep, hf, g96, hu]
  · simp [refreshDatasetsStep, hf, i48]
  · simp [refreshDatasetsStep, hf, i96]

/-! ## Claim C5 — watchdog-triggered bypass and year persistence -/

/-- C5: for a `changed=true`, error-free probe on an existing dataset with
a fetcher, the watchdog path attempts the refresh with no rate-gate check
(the status never rate-skips and ignores `lastRefreshedAt`), and after a
completed step `latestSourceYear` equals the probe's `detectedYear` — both
when a new snapshot is created and when the fresh payload hashes
identically to the stored one. -/
theorem claim5_watchdog_bypass_year (now : Int) (probe : WatchdogResult) (ds : Dataset)
    (st : Store) (p : Jv) (y : Int) (t' : Option Int)
    (hf : hasFetcher ds.slug = true) (hy : probe.detectedYear = some y) (hy0 : y ≠ 0) :
    Claim5Conclusion now probe ds st p y t' := by
  unfold Claim5Conclusion
  have htruthy : jsTruthyOptInt probe.detectedYear = true := by
    rw [hy]
    simp [jsTruthyOptInt, hy0]
  have htruthy2 : jsTruthyOptInt (some y) = true := by
    simp [jsTruthyOptInt, hy0]
  have hsame : hashUnchanged { ds with lastRefreshedAt := t' } st (sourceHash p) =
      hashUnchanged ds st (sourceHash p) := rfl
  by_cases hu : hashUnchanged ds st (sourceHash p) = true
  · refine ⟨?_, ?_, ?_, ?_⟩
    · simp [watchdogRefreshStep, hf, hu, htruthy]
    · simp [watchdogRefreshStep, hf, hsame, hu, htruthy, htruthy2, hy]
    · simp [watchdogRefreshStep, hf, hu, htruthy, htruthy2, hy]
    · left
      simp [watchdogRefreshStep, hf, hu, htruthy, htruthy2, hy]
  · refine ⟨?_, ?_, ?_, ?_⟩
    · simp [watchdogRefreshStep, hf, hu, htruthy]
    · simp [watchdogRefreshStep, hf, hsame, hu, htruthy, htruthy2, hy]
    · simp [watchdogRefreshStep, hf, hu, htruthy, htruthy2, hy]
    · right
      simp [watchdogRefreshStep, hf, hu, htruthy, htruthy2, hy]

theorem claim5_witness :
    hasFetcher bitcoinDataset.slug = true ∧
    sampleProbeResult.detectedYear = some 2024 ∧
    (2024 : Int) ≠ 0 ∧
    Claim5Conclusion 0 sampleProbeResult bitcoinDataset emptyStore samplePayload
      2024 (some 0) :=
  ⟨by decide, rfl, by decide,
   claim5_watchdog_bypass_year 0 sampleProbeResult bitcoinDataset emptyStore
     samplePayload 2024 (some 0) (by decide) rfl (by decide)⟩

/-! ## Claim C6 — CO₂ probe rule precedence -/

theorem co2YearAt_ge_2000 (cs : List Char) (y : Nat) (h : co2YearAt cs = some y) :
    2000 ≤ y := by
  unfold co2YearAt at h
  split at h
  · split at h
    · rw [Option.some.injEq] at h
      omega
    · cases h
  · cases h

theorem firstYear_ge_2000 (cs : List Char) (y : Nat) (h : firstYear cs = some y) :
    2000 ≤ y := by
  induction cs with
  | nil => simp [firstYear] at h
  | cons c rest ih =>
    rw [firstYear] at h
    cases hat : co2YearAt (c :: rest) with
    | some z =>
      rw [hat] at h
      rw [Option.some.injEq] at h
      subst h
      exact co2YearAt_ge_2000 _ _ hat
    | none =>
      rw [hat] at h
      exact ih h

theorem co2Decision_temporal (py cy cm : Int) (hpy : py ≠ 0) (hcy : cy ≥ py)
    (hcm : cm ≥ 11) :
    co2Decision (some py) (some py) cy cm = (true, some cy) := by
  unfold co2Decision
  rw [if_neg, if_pos]
  · simp only [Option.getD_some]
    rw [decide_eq_true hcm, Bool.or_true]
  · simp [jsTruthyOptInt, hpy]
    omega
  · simp [jsTruthyOptInt, hpy]

theorem co2Decision_mentioned (py my cy cm : Int) (hpy : py ≠ 0) (hmy : my ≠ 0)
    (hgt : my > py) :
    co2Decision (some py) (some my) cy cm = (true, some my) := by
  unfold co2Decision
  rw [if_pos]
  simp [jsTruthyOptInt, hpy, hmy, hgt]

/-- C6: in the CO₂ probe, when the commit message's first mentioned year
equals the previous year (rule 1 does not fire) and the commit's calendar
year is at least the previous year with month ≥ 11, the probe still
reports `changed=true`; and whenever the mentioned year strictly exceeds
the previous year, the mentioned-year rule is applied first and wins,
reporting the mentioned year as detected. -/
theorem claim6_co2_rule_precedence (now : Int) (commit : CommitInfo) (py : Int) (my : Nat)
    (hpy : 0 < py) (hment : firstYear commit.message.toList = some my) :
    Claim6Conclusion now commit py my := by
  unfold Claim6Conclusion
  have hge := firstYear_ge_2000 _ _ hment
  have hpy0 : py ≠ 0 := by omega
  have hmy0 : Int.ofNat my ≠ 0 := fun h => by
    have h2 := Int.ofNat_eq_zero.mp h
    omega
  have hchanged : ∀ cy : Option Int,
      (probeCO2Emissions now (.ok (some commit)) cy).changed =
        (co2Decision cy ((firstYear commit.message.toList).map Int.ofNat)
          commit.year commit.month).1 := fun _ => rfl
  have hdetected : ∀ cy : Option Int,
      (probeCO2Emissions now (.ok (some commit)) cy).detectedYear =
        (co2Decision cy ((firstYear commit.message.toList).map Int.ofNat)
          commit.year commit.month).2 := fun _ => rfl
  constructor
  · intro heq hyear hmonth
    rw [hchanged, hdetected, hment, Option.map_some', heq,
      co2Decision_temporal py commit.year commit.month hpy0 hyear hmonth]
    exact ⟨rfl, rfl⟩
  · intro hgt
    rw [hchanged, hdetected, hment, Option.map_some',
      co2Decision_mentioned py (Int.ofNat my) commit.year commit.month hpy0 hmy0 hgt]
    exact ⟨rfl, rfl⟩

theorem claim6_witness :
    0 < 2024 ∧
    firstYear novemberCommit.message.toList = some 2024 ∧
    Claim6Conclusion 0 novemberCommit 2024 2024 :=
  ⟨by decide, by decide,
   claim6_co2_rule_precedence 0 novemberCommit 2024 2024 (by decide) (by decide)⟩

/-! ## Claim C8 — snapshot-pointer safety -/

theorem pointerValid_append (ds : Dataset) (st : Store) (l : List Snapshot) (n : Nat)
    (h : pointerValid ds st) :
    pointerValid ds { snapshots := st.snapshots ++ l, nextId := n } := by
  intro i hi
  obtain ⟨s, hs, hid⟩ := h i hi
  exact ⟨s, List.mem_append_left _ hs, hid⟩

theorem pointerValid_created (ds' : Dataset) (st : Store) (d : Nat) (p : Jv)
    (hash : String) (now : Int)
    (hid : ds'.latestSnapshotId = some (createSnapshot st d p hash now).1.id) :
    pointerValid ds' (createSnapshot st d p hash now).2 := by
  intro i hi
  rw [hid, Option.some.injEq] at hi
  subst hi
  exact ⟨(createSnapshot st d p hash now).1,
    List.mem_append_right _ (List.mem_singleton_self _), rfl⟩

/-- C8: in every refresh path the dataset's `latestSnapshotId` is only ever
moved to the id of the snapshot row just created — the pointer update is
the later step — so a dataset whose pointer is valid keeps a valid pointer
under every adapter outcome and every database-call failure; a failed
pointer update leaves at worst an orphaned snapshot with the old pointer
still valid. -/
theorem claim8_pointer_safety (force : Bool) (now : Int) (fetched : Fetched)
    (cOk pOk : Bool) (ds : Dataset) (st : Store) (probe : WatchdogResult)
    (hvalid : pointerValid ds st) :
    Claim8Conclusion force now fetched cOk pOk ds st probe := by
  unfold Claim8Conclusion
  refine ⟨?_, ?_, ?_, ?_⟩
  · rcases fetched with m | p
    · cases hF : hasFetcher ds.slug
      · simp [refreshRouteStep, hF]
        exact hvalid
      · cases force
        · cases hG : routeGate now ds
          · simp [refreshRouteStep, hF, hG]
            exact hvalid
          · simp [refreshRouteStep, hF, hG]
            exact hvalid
        · simp [refreshRouteStep, hF]
          exact hvalid
    · cases hF : hasFetcher ds.slug
      · simp [refreshRouteStep, hF]
        exact hvalid
      · cases force
        · cases hG : routeGate now ds
          · cases hH : hashUnchanged ds st (sourceHash p)
            · cases cOk
              · simp [refreshRouteStep, hF, hG, hH]
                exact hvalid
              · cases pOk
                · simp [refreshRouteStep, hF, hG, hH]
                  exact pointerValid_append ds st _ _ hvalid
                · simp [refreshRouteStep, hF, hG, hH]
                  exact pointerValid_created _ st ds.id p (sourceHash p) now rfl
            · simp [refreshRouteStep, hF, hG, hH]
              exact hvalid
          · simp [refreshRouteStep, hF, hG]
            exact hvalid
        · cases hH : hashUnchanged ds st (sourceHash p)
          · cases cOk
            · simp [refreshRouteStep, hF, hH]
              exact hvalid
            · cases pOk
              · simp [refreshRouteStep, hF, hH]
                exact pointerValid_append ds st _ _ hvalid
              · simp [refreshRouteStep, hF, hH]
                exact pointerValid_created _ st ds.id p (sourceHash p) now rfl
          · simp [refreshRouteStep, hF, hH]
            exact hvalid
  · rcases fetched with m | p
    · cases hF : hasFetcher ds.slug
      · simp [refreshDatasetsStep, hF]
        exact hvalid
      · cases hG : inngestGate now ds
        · simp [refreshDatasetsStep, hF, hG]
          exact hvalid
        · simp [refreshDatasetsStep, hF, hG]
          exact hvalid
    · cases hF : hasFetcher ds.slug
      · simp [refreshDatasetsStep, hF]
        exact hvalid
      · cases hG : inngestGate now ds
        · cases hH : hashUnchanged ds st (sourceHash p)
          · cases cOk
            · simp [refreshDatasetsStep, hF, hG, hH]
              exact hvalid
            · cases pOk
              · simp [refreshDatasetsStep, hF, hG, hH]
                exact pointerValid_append ds st _ _ hvalid
              · simp [refreshDatasetsStep, hF, hG, hH]
                exact pointerValid_created _ st ds.id p (sourceHash p) now rfl
          · simp [refreshDatasetsStep, hF, hG, hH]
            exact hvalid
        · simp [refreshDatasetsStep, hF, hG]
          exact hvalid
  · rcases fetched with m | p
    · cases hF : hasFetcher ds.slug
      · simp [refreshOneStep, hF]
        exact hvalid
      · simp [refreshOneStep, hF]
        exact hvalid
    · cases hF : hasFetcher ds.slug
      · simp [refreshOneStep, hF]
        exact hvalid
      · cases hH : hashUnchanged ds st (sourceHash p)
        · cases cOk
          · simp [refreshOneStep, hF, hH]
            exact hvalid
          · cases pOk
            · simp [refreshOneStep, hF, hH]
              exact pointerValid_append ds st _ _ hvalid
            · simp [refreshOneStep, hF, hH]
              exact pointerValid_created _ st ds.id p (sourceHash p) now rfl
        · simp [refreshOneStep, hF, hH]
          exact hvalid
  · intro ds' hds'
    rcases fetched with m | p
    · cases hF : hasFetcher ds.slug
      · simp [watchdogRefreshStep, hF] at hds' ⊢
        subst hds'
        exact hvalid
      · simp [watchdogRefreshStep, hF] at hds' ⊢
        subst hds'
        exact hvalid
    · cases hF : hasFetcher ds.slug
      · simp [watchdogRefreshStep, hF] at hds' ⊢
        subst hds'
        exact hvalid
      · cases hH : hashUnchanged ds st (sourceHash p)
        · cases cOk
          · simp [watchdogRefreshStep, hF, hH] at hds' ⊢
            subst hds'
            exact hvalid
          · cases pOk
            · simp [watchdogRefreshStep, hF, hH] at hds' ⊢
              subst hds'
              exact pointerValid_append ds st _ _ hvalid
            · simp [watchdogRefreshStep, hF, hH] at hds' ⊢
              subst hds'
              exact pointerValid_created _ st ds.id p (sourceHash p) now rfl
        · cases hT : jsTruthyOptInt probe.detectedYear
          · simp [watchdogRefreshStep, hF, hH, hT] at hds' ⊢
            subst hds'
            exact hvalid
          · simp [watchdogRefreshStep, hF, hH, hT] at hds' ⊢
            subst hds'
            exact hvalid

theorem claim8_witness :
    pointerValid bitcoinDataset sampleStore ∧
    Claim8Conclusion false 7200000 (.ok samplePayload) true true bitcoinDataset
      sampleStore sampleProbeResult :=
  have hv : pointerValid bitcoinDataset sampleStore := by
    intro i hi
    rw [show bitcoinDataset.latestSnapshotId = some 1 from rfl, Option.some.injEq] at hi
    subst hi
    exact ⟨storedSnapshot, List.mem_singleton_self _, rfl⟩
  ⟨hv, claim8_pointer_safety false 7200000 (.ok samplePayload) true true bitcoinDataset
    sampleStore sampleProbeResult hv⟩

/-! ## Claim C9 — watchdog timestamp coverage -/

theorem runAllProbes_slugs (now : Int) (env : ProbeEnv) (ky : String → Option Int) :
    (runAllProbes now env ky).map WatchdogResult.slug = knownProbeSlugs := by
  simp [runAllProbes, knownProbeSlugs, probeCO2_slug, probeOWID_slug, probeWB_slug,
    probeWealth_slug]

/-- C9: after a watchdog run — whatever each probe's outcome, including
errors and `changed=false` — every dataset whose slug is probed has
`lastWatchdogAt` set to the run's timestamp by the `updateMany` step. -/
theorem claim9_lastWatchdogAt_updated (now : Int) (env : ProbeEnv)
    (ky : String → Option Int) (datasets : List Dataset) (ds : Dataset)
    (hds : ds ∈ datasets) (hprobed : ds.slug ∈ knownProbeSlugs) :
    { ds with lastWatchdogAt := some now } ∈
      updateWatchdogTimestamps now (runAllProbes now env ky) datasets := by
  have hcontains : ((runAllProbes now env ky).map WatchdogResult.slug).contains ds.slug
      = true := by
    rw [runAllProbes_slugs]
    exact List.elem_iff.mpr hprobed
  unfold updateWatchdogTimestamps
  have hmem := List.mem_map_of_mem
    (f := fun d : Dataset =>
      if ((runAllProbes now env ky).map WatchdogResult.slug).contains d.slug then
        { d with lastWatchdogAt := some now }
      else d) hds
  beta_reduce at hmem
  rw [if_pos hcontains] at hmem
  exact hmem

theorem claim9_witness :
    weeklyDataset ∈ [weeklyDataset] ∧
    weeklyDataset.slug ∈ knownProbeSlugs ∧
    { weeklyDataset with lastWatchdogAt := some 5 } ∈
      updateWatchdogTimestamps 5 (runAllProbes 5 probeEnvFailing (fun _ => none))
        [weeklyDataset] :=
  ⟨List.mem_singleton_self _, by decide,
   claim9_lastWatchdogAt_updated 5 probeEnvFailing (fun _ => none) [weeklyDataset]
     weeklyDataset (List.mem_singleton_self _) (by decide)⟩

theorem claim4_witness :
    weeklyDataset.refreshRate = "weekly" ∧
    hasFetcher weeklyDataset.slug = true ∧
    weeklyDataset.lastRefreshedAt = some 0 ∧
    (172800000 : Int) - 0 = 48 * 3600000 ∧
    (345600000 : Int) - 0 = 96 * 3600000 ∧
    Claim4Conclusion (.ok samplePayload) weeklyDataset emptyStore true true
      172800000 345600000 :=
  ⟨rfl, by decide, rfl, by decide, by decide,
   claim4_rate_gating (.ok samplePayload) weeklyDataset emptyStore true true 0
     172800000 345600000 rfl (by decide) rfl (by decide) (by decide)⟩

end ScaleCards
